import Mathlib

/-!
Verification of the CGToy GPU context and resource-management layer.

This development shallowly embeds the render context of the repository:
the descriptor translation layer (`src/render/context/{types,sampler,buffer}.rs`),
the surface registry and resource tables (`src/render/context.rs`), the
UUID-based handle generation (`uuid::Uuid::new_v4`), and the legacy
swap-chain draft (`src/render/render_context.rs`).

Driver-side effects (adapter queries, surface support, frame acquisition
results, randomness) are passed in explicitly as oracle values, and the
native surface is modelled by the list of configurations it has received,
so that statements about "reconfiguration" and "left untouched" are exact
statements about the model state.
-/

namespace CGToy

/-! ## Association tables

`HashMap`-style association tables: unique keys are maintained by
`insertTable`, which replaces any previous binding of the key. -/

/-- Lookup in an association table, as `HashMap::get`. -/
def lookupTable {κ α : Type} [DecidableEq κ] : List (κ × α) → κ → Option α
  | [], _ => none
  | (k', v) :: rest, k => if k' = k then some v else lookupTable rest k

/-- Key-membership test, as `HashMap::contains_key`. -/
def containsTable {κ α : Type} [DecidableEq κ] (t : List (κ × α)) (k : κ) : Bool :=
  (lookupTable t k).isSome

/-- Removal of a key, as `HashMap::remove` (result state only). -/
def eraseTable {κ α : Type} [DecidableEq κ] (t : List (κ × α)) (k : κ) : List (κ × α) :=
  t.filter (fun p => !(decide (p.1 = k)))

/-- Insertion, as `HashMap::insert`: replaces any previous binding of `k`. -/
def insertTable {κ α : Type} [DecidableEq κ] (t : List (κ × α)) (k : κ) (v : α) :
    List (κ × α) :=
  (k, v) :: eraseTable t k

/-- Number of entries bound to key `k` (1 for a well-formed map that holds `k`). -/
def countTable {κ α : Type} [DecidableEq κ] (t : List (κ × α)) (k : κ) : Nat :=
  (t.filter (fun p => decide (p.1 = k))).length

theorem lookupTable_eq_none_of_countTable_eq_zero {κ α : Type} [DecidableEq κ]
    {t : List (κ × α)} {k : κ} (h : countTable t k = 0) : lookupTable t k = none := by
  induction t with
  | nil => rfl
  | cons p rest ih =>
    obtain ⟨k', v⟩ := p
    by_cases hk : k' = k
    · simp [countTable, List.filter_cons, hk] at h
    · simp only [countTable, List.filter_cons] at h
      rw [decide_eq_false hk] at h
      simp only [lookupTable, if_neg hk]
      exact ih h

theorem eraseTable_eq_of_lookupTable_eq_none {κ α : Type} [DecidableEq κ]
    {t : List (κ × α)} {k : κ} (h : lookupTable t k = none) : eraseTable t k = t := by
  induction t with
  | nil => rfl
  | cons p rest ih =>
    obtain ⟨k', v⟩ := p
    by_cases hk : k' = k
    · simp [lookupTable, hk] at h
    · simp only [lookupTable, if_neg hk] at h
      simp only [eraseTable, List.filter_cons, decide_eq_false hk, Bool.not_false, if_pos]
      simpa [eraseTable] using ih h

theorem countTable_eraseTable_self {κ α : Type} [DecidableEq κ]
    (t : List (κ × α)) (k : κ) : countTable (eraseTable t k) k = 0 := by
  simp [countTable, eraseTable, List.filter_filter]

theorem countTable_insertTable_self {κ α : Type} [DecidableEq κ]
    (t : List (κ × α)) (k : κ) (v : α) : countTable (insertTable t k v) k = 1 := by
  simpa [insertTable, countTable, List.filter_cons] using countTable_eraseTable_self t k

theorem lookupTable_insertTable_self {κ α : Type} [DecidableEq κ]
    (t : List (κ × α)) (k : κ) (v : α) : lookupTable (insertTable t k v) k = some v := by
  simp [insertTable, lookupTable]

theorem lookupTable_insertTable_ne {κ α : Type} [DecidableEq κ]
    (t : List (κ × α)) (k k' : κ) (v : α) (h : ¬ k' = k) :
    lookupTable (insertTable t k v) k' = lookupTable t k' := by
  simp only [insertTable, lookupTable]
  rw [if_neg (fun he => h he.symm)]
  induction t with
  | nil => rfl
  | cons p rest ih =>
    obtain ⟨k₀, v₀⟩ := p
    by_cases hk : k₀ = k
    · simp only [eraseTable, List.filter_cons, decide_eq_true hk, Bool.not_true, if_neg]
      simp only [lookupTable, if_neg (hk ▸ fun he => h he.symm : ¬ k₀ = k')]
      simpa [eraseTable] using ih
    · simp only [eraseTable, List.filter_cons, decide_eq_false hk, Bool.not_false, if_pos]
      by_cases hk' : k₀ = k'
      · simp [lookupTable, hk']
      · simp only [lookupTable, if_neg hk']
        simpa [eraseTable] using ih

/-! ## Descriptor translation layer

Public value types from `src/render/context/{sampler,types,buffer}.rs` and
their `From` translations into the underlying API's (`wgpu`) shapes. The
`Wgpu*` types mirror the native enumerations; each translation function is
transcribed arm by arm from the source `From` impl. -/

/-- Public `AddressMode` (`sampler.rs`). -/
inductive AddressMode
  | ClampToEdge
  | Repeat
  | MirrorRepeat
  | ClampToBorder
deriving DecidableEq

/-- Native `wgpu::AddressMode`. -/
inductive WgpuAddressMode
  | ClampToEdge
  | Repeat
  | MirrorRepeat
  | ClampToBorder
deriving DecidableEq

/-- Translation `From<AddressMode> for wgpu::AddressMode` (`sampler.rs`). -/
def addressModeFrom : AddressMode → WgpuAddressMode
  | .ClampToEdge => .ClampToEdge
  | .Repeat => .Repeat
  | .MirrorRepeat => .MirrorRepeat
  | .ClampToBorder => .ClampToBorder

/-- Public `FilterMode` (`sampler.rs`). -/
inductive FilterMode
  | Nearest
  | Linear
deriving DecidableEq

/-- Native `wgpu::FilterMode`. -/
inductive WgpuFilterMode
  | Nearest
  | Linear
deriving DecidableEq

/-- Translation `From<FilterMode> for wgpu::FilterMode` (`sampler.rs`). -/
def filterModeFrom : FilterMode → WgpuFilterMode
  | .Nearest => .Nearest
  | .Linear => .Linear

/-- Public `SamplerBorderColor` (`sampler.rs`). -/
inductive SamplerBorderColor
  | TransparentBlack
  | OpaqueBlack
  | OpaqueWhite
deriving DecidableEq

/-- Native `wgpu::SamplerBorderColor`. -/
inductive WgpuSamplerBorderColor
  | TransparentBlack
  | OpaqueBlack
  | OpaqueWhite
deriving DecidableEq

/-- Translation `From<SamplerBorderColor> for wgpu::SamplerBorderColor` (`sampler.rs`). -/
def samplerBorderColorFrom : SamplerBorderColor → WgpuSamplerBorderColor
  | .TransparentBlack => .TransparentBlack
  | .OpaqueBlack => .OpaqueBlack
  | .OpaqueWhite => .OpaqueWhite

/-- Public `CompareFunction` (`types.rs`). -/
inductive CompareFunction
  | Never
  | Less
  | Equal
  | LessEqual
  | Greater
  | NotEqual
  | GreaterEqual
  | Always
deriving DecidableEq

/-- Native `wgpu::CompareFunction`. -/
inductive WgpuCompareFunction
  | Never
  | Less
  | Equal
  | LessEqual
  | Greater
  | NotEqual
  | GreaterEqual
  | Always
deriving DecidableEq

/-- Translation `From<CompareFunction> for wgpu::CompareFunction` (`types.rs`,
transcribed arm by arm: note the `GreaterEqual` arm of the source reads
`CompareFunction::GreaterEqual => Self::Never`). -/
def compareFunctionFrom : CompareFunction → WgpuCompareFunction
  | .Never => .Never
  | .Less => .Less
  | .Equal => .Equal
  | .LessEqual => .LessEqual
  | .Greater => .Greater
  | .NotEqual => .NotEqual
  | .GreaterEqual => .Never
  | .Always => .Always

/-- Public `SamplerDescriptor` (`sampler.rs`). The `f32` fields are carried
as IEEE-754 bit patterns; the source copies them verbatim and never
computes with them. `anisotropy_clamp` carries the `NonZeroU8` value. -/
structure SamplerDescriptor where
  address_mode_u : AddressMode
  address_mode_v : AddressMode
  address_mode_w : AddressMode
  mag_filter : FilterMode
  min_filter : FilterMode
  mipmap_filter : FilterMode
  lod_min_clamp : Nat
  lod_max_clamp : Nat
  compare : Option CompareFunction
  anisotropy_clamp : Option Nat
  border_color : Option SamplerBorderColor
deriving DecidableEq

/-- Native `wgpu::SamplerDescriptor` (label dropped: the source always
passes `label: None`). -/
structure WgpuSamplerDescriptor where
  address_mode_u : WgpuAddressMode
  address_mode_v : WgpuAddressMode
  address_mode_w : WgpuAddressMode
  mag_filter : WgpuFilterMode
  min_filter : WgpuFilterMode
  mipmap_filter : WgpuFilterMode
  lod_min_clamp : Nat
  lod_max_clamp : Nat
  compare : Option WgpuCompareFunction
  anisotropy_clamp : Option Nat
  border_color : Option WgpuSamplerBorderColor
deriving DecidableEq

/-- Translation `From<&SamplerDescriptor> for wgpu::SamplerDescriptor` (`sampler.rs`). -/
def samplerDescriptorFrom (desc : SamplerDescriptor) : WgpuSamplerDescriptor :=
  { address_mode_u := addressModeFrom desc.address_mode_u
    address_mode_v := addressModeFrom desc.address_mode_v
    address_mode_w := addressModeFrom desc.address_mode_w
    mag_filter := filterModeFrom desc.mag_filter
    min_filter := filterModeFrom desc.min_filter
    mipmap_filter := filterModeFrom desc.mipmap_filter
    lod_min_clamp := desc.lod_min_clamp
    lod_max_clamp := desc.lod_max_clamp
    compare := desc.compare.map compareFunctionFrom
    anisotropy_clamp := desc.anisotropy_clamp
    border_color := desc.border_color.map samplerBorderColorFrom }

/-- Public `BufferDescriptor` (`buffer.rs`); `usage` is the `BufferUsages`
bitflags value (a `u32`). -/
structure BufferDescriptor where
  size : Nat
  usage : Nat
  mapped_at_creation : Bool
deriving DecidableEq

/-- Native `wgpu::BufferDescriptor` (label dropped: always `None`). -/
structure WgpuBufferDescriptor where
  size : Nat
  usage : Nat
  mapped_at_creation : Bool
deriving DecidableEq

/-- Translation `From<BufferUsages> for wgpu::BufferUsages` (`buffer.rs`):
`from_bits_truncate` keeps exactly the nine defined flag bits. -/
def bufferUsagesFrom (usage : Nat) : Nat :=
  usage &&& 0x1FF

/-- Translation `From<&BufferDescriptor> for wgpu::BufferDescriptor`
(`buffer.rs`): the source fills `mapped_at_creation: false` literally. -/
def bufferDescriptorFrom (desc : BufferDescriptor) : WgpuBufferDescriptor :=
  { size := desc.size
    usage := bufferUsagesFrom desc.usage
    mapped_at_creation := false }

/-- Public `BufferInitDescriptor` (`buffer.rs`): `contents` are the initial
bytes. -/
structure BufferInitDescriptor where
  contents : List Nat
  usage : Nat
deriving DecidableEq

/-- Native `wgpu::util::BufferInitDescriptor` (label dropped: always `None`). -/
structure WgpuBufferInitDescriptor where
  contents : List Nat
  usage : Nat
deriving DecidableEq

/-- Translation `From<&BufferInitDescriptor> for wgpu::util::BufferInitDescriptor`
(`buffer.rs`). -/
def bufferInitDescriptorFrom (desc : BufferInitDescriptor) : WgpuBufferInitDescriptor :=
  { contents := desc.contents
    usage := bufferUsagesFrom desc.usage }

/-! ## Handle generation

`BufferId::new`/`SamplerId::new`/`TextureId::new` wrap `uuid::Uuid::new_v4()`:
16 random bytes with the version nibble forced to `4` (high nibble of byte 6,
bits 76–79 of the big-endian `u128`) and the variant bits forced to `10`
(top two bits of byte 8, bits 62–63). The entropy drawn from the operating
system is an explicit input `r`. -/

/-- The 128-bit value of `Uuid::new_v4()` built from the random draw `r`
(the 16 random bytes, big-endian): version nibble set to `0100`, variant
bits set to `10`, all other bits taken from `r`. -/
def uuidV4 (r : Nat) : Nat :=
  Nat.ldiff (r % 2 ^ 128) (0xF <<< 76 ||| 0x3 <<< 62) ||| (0x4 <<< 76) ||| (0x2 <<< 62)

theorem uuidV4_testBit_low (r i : Nat) (hi : i < 62) :
    (uuidV4 r).testBit i = r.testBit i := by
  have h76 : ¬ (i ≥ 76) := by omega
  have h62 : ¬ (i ≥ 62) := by omega
  have h128 : i < 128 := by omega
  simp only [uuidV4, Nat.testBit_lor, Nat.testBit_ldiff, Nat.testBit_shiftLeft,
    Nat.testBit_mod_two_pow, decide_eq_false h76, decide_eq_false h62,
    decide_eq_true h128]
  simp

theorem uuidV4_mod_two_pow_62 (r : Nat) : uuidV4 r % 2 ^ 62 = r % 2 ^ 62 :=
  Nat.eq_of_testBit_eq fun i => by
    by_cases hi : i < 62
    · rw [Nat.testBit_mod_two_pow, Nat.testBit_mod_two_pow, uuidV4_testBit_low r i hi]
    · rw [Nat.testBit_mod_two_pow, Nat.testBit_mod_two_pow, decide_eq_false hi]
      simp

theorem uuidV4_ne_of_low_bits_ne {r r' : Nat} (h : r % 2 ^ 62 ≠ r' % 2 ^ 62) :
    uuidV4 r ≠ uuidV4 r' := fun he =>
  h (by rw [← uuidV4_mod_two_pow_62, he, uuidV4_mod_two_pow_62])

/-! ## Surface registry and resource tables (`src/render/context.rs`)

`ResourceContext` holds the surface registry keyed by `WindowId` and the
sampler/buffer tables keyed by the 128-bit handle values. A native
`wgpu::Surface` is modelled by the list of `SurfaceConfiguration`s passed
to `Surface::configure` on it, newest first, so "reconfigured" and "left
untouched" are statements about that list. -/

/-- `wgpu::PresentMode` (the era of the source: `Immediate`/`Mailbox`/`Fifo`). -/
inductive PresentMode
  | Immediate
  | Mailbox
  | Fifo
deriving DecidableEq

/-- `wgpu::SurfaceConfiguration`: `usage` is the `TextureUsages` bits
(`RENDER_ATTACHMENT = 16`), `format` the driver's `TextureFormat` code. -/
structure SurfaceConfiguration where
  usage : Nat
  format : Nat
  width : Nat
  height : Nat
  present_mode : PresentMode
deriving DecidableEq

/-- `wgpu::TextureUsages::RENDER_ATTACHMENT` (bit 4). -/
def RENDER_ATTACHMENT : Nat := 16

/-- A native `wgpu::Surface`, observed through the configurations passed to
`Surface::configure`, newest first. -/
structure WgpuSurface where
  configured : List SurfaceConfiguration
deriving DecidableEq

/-- A native `wgpu::Sampler`, observed through the descriptor it was
created from. -/
structure WgpuSampler where
  desc : WgpuSamplerDescriptor
deriving DecidableEq

/-- A native `wgpu::Buffer`, observed through the descriptor it was created
from (`Device::create_buffer` or `DeviceExt::create_buffer_init`). -/
inductive WgpuBuffer
  | fromDescriptor (desc : WgpuBufferDescriptor)
  | fromInit (desc : WgpuBufferInitDescriptor)
deriving DecidableEq

/-- The mutable state of `ResourceContext`: the three guarded tables. The
window identity is a `Nat` (`winit::window::WindowId`); sampler and buffer
keys are the 128-bit `Uuid` values inside `SamplerId`/`BufferId`. -/
structure ResourceContext where
  surfaces : List (Nat × (WgpuSurface × SurfaceConfiguration))
  samplers : List (Nat × WgpuSampler)
  buffers : List (Nat × WgpuBuffer)
deriving DecidableEq

/-- The `ResourceContext` just after `RenderContext::new`: all three tables
empty (`Default::default()`). -/
def emptyResourceContext : ResourceContext :=
  { surfaces := [], samplers := [], buffers := [] }

/-- A `winit` window as `create_surface` consumes it: its identity
(`Window::id`) and current inner size (`Window::inner_size`). -/
structure Window where
  id : Nat
  width : Nat
  height : Nat
deriving DecidableEq

/-- Driver responses consumed during `ResourceContext::create_surface`:
whether `Adapter::is_surface_supported` holds for the fresh surface, what
`Surface::get_preferred_format` returns, and whether the driver could
actually present with `PresentMode::Mailbox` (the source never asks). -/
structure SurfaceEnvironment where
  is_surface_supported : Bool
  preferred_format : Option Nat
  mailbox_supported : Bool
deriving DecidableEq

/-- Result of `ResourceContext::create_surface`: a normal return with the
new state, the `todo!()` arm for an unsupported adapter, or the panic of
`get_preferred_format(..).unwrap()`. -/
inductive CreateSurfaceOutcome
  | ok (ctx : ResourceContext)
  | adapterUnsupportedTodo
  | preferredFormatMissing
deriving DecidableEq

/-- `ResourceContext::create_surface` (`context.rs`): no-op when the window
identity is already registered; otherwise create the native surface, check
adapter support, query the preferred format, configure at the window's
inner size with `PresentMode::Mailbox`, and insert the entry. -/
def create_surface (ctx : ResourceContext) (window : Window)
    (env : SurfaceEnvironment) : CreateSurfaceOutcome :=
  if containsTable ctx.surfaces window.id then .ok ctx
  else if env.is_surface_supported then
    match env.preferred_format with
    | some format =>
      let desc : SurfaceConfiguration :=
        { usage := RENDER_ATTACHMENT
          format := format
          width := window.width
          height := window.height
          present_mode := .Mailbox }
      .ok { ctx with
        surfaces := insertTable ctx.surfaces window.id (⟨[desc]⟩, desc) }
    | none => .preferredFormatMissing
  else .adapterUnsupportedTodo

/-- `ResourceContext::update_surface` (`context.rs`): when the identity is
registered, overwrite the stored width and height with the new size and
reconfigure the native surface with the updated descriptor; otherwise do
nothing. -/
def update_surface (ctx : ResourceContext) (id : Nat)
    (new_width new_height : Nat) : ResourceContext :=
  match lookupTable ctx.surfaces id with
  | none => ctx
  | some (surface, desc) =>
    let desc' := { desc with width := new_width, height := new_height }
    let surface' := { surface with configured := desc' :: surface.configured }
    { ctx with surfaces := insertTable ctx.surfaces id (surface', desc') }

/-- `wgpu::SurfaceError` of the era of the source. -/
inductive SurfaceError
  | Timeout
  | Outdated
  | Lost
  | OutOfMemory
deriving DecidableEq

/-- What `Surface::get_current_frame` returns for this call, supplied by the
driver. -/
inductive FrameAttempt
  | success
  | failure (error : SurfaceError)
deriving DecidableEq

/-- Result of `ResourceContext::surface_next_frame`: `Some(frame)` with the
(possibly reconfigured) state, `None` with the state, or the
`panic!` on `SurfaceError::OutOfMemory`. -/
inductive NextFrameOutcome
  | frame (ctx : ResourceContext)
  | noFrame (ctx : ResourceContext)
  | fatalOutOfMemory
deriving DecidableEq

/-- `ResourceContext::surface_next_frame` (`context.rs`): `None` when the
identity is unregistered; on success the frame; on `Lost` reconfigure with
the stored descriptor and return `None`; on `OutOfMemory` panic; on any
other error (`Timeout`, `Outdated`) return `None` untouched. -/
def surface_next_frame (ctx : ResourceContext) (id : Nat)
    (attempt : FrameAttempt) : NextFrameOutcome :=
  match lookupTable ctx.surfaces id with
  | none => .noFrame ctx
  | some (surface, desc) =>
    match attempt with
    | .success => .frame ctx
    | .failure e =>
      match e with
      | .Lost =>
        let surface' := { surface with configured := desc :: surface.configured }
        .noFrame { ctx with surfaces := insertTable ctx.surfaces id (surface', desc) }
      | .OutOfMemory => .fatalOutOfMemory
      | _ => .noFrame ctx

/-- `ResourceContext::create_sampler` (`context.rs`): draw a fresh
`SamplerId` (`uuidV4` of the random draw `r`), create the native sampler
from the translated descriptor, insert it, return the id. -/
def create_sampler (ctx : ResourceContext) (desc : SamplerDescriptor)
    (r : Nat) : Nat × ResourceContext :=
  let sampler_id := uuidV4 r
  let sampler : WgpuSampler := ⟨samplerDescriptorFrom desc⟩
  (sampler_id, { ctx with samplers := insertTable ctx.samplers sampler_id sampler })

/-- `ResourceContext::remove_sampler` (`context.rs`): `HashMap::remove` on
the sampler table. -/
def remove_sampler (ctx : ResourceContext) (id : Nat) : ResourceContext :=
  { ctx with samplers := eraseTable ctx.samplers id }

/-- `ResourceContext::create_buffer` (`context.rs`): draw a fresh
`BufferId`, create the native buffer from the translated descriptor,
insert it, return the id. -/
def create_buffer (ctx : ResourceContext) (desc : BufferDescriptor)
    (r : Nat) : Nat × ResourceContext :=
  let buffer_id := uuidV4 r
  let buffer : WgpuBuffer := .fromDescriptor (bufferDescriptorFrom desc)
  (buffer_id, { ctx with buffers := insertTable ctx.buffers buffer_id buffer })

/-- `ResourceContext::create_buffer_with_data` (`context.rs`): same as
`create_buffer` but through `DeviceExt::create_buffer_init` on the
translated init descriptor. -/
def create_buffer_with_data (ctx : ResourceContext)
    (desc : BufferInitDescriptor) (r : Nat) : Nat × ResourceContext :=
  let buffer_id := uuidV4 r
  let buffer : WgpuBuffer := .fromInit (bufferInitDescriptorFrom desc)
  (buffer_id, { ctx with buffers := insertTable ctx.buffers buffer_id buffer })

/-- `ResourceContext::remove_buffer` (`context.rs`): `HashMap::remove` on
the buffer table. -/
def remove_buffer (ctx : ResourceContext) (id : Nat) : ResourceContext :=
  { ctx with buffers := eraseTable ctx.buffers id }

/-- One `create*` call of the resource tables, for stating properties of a
sequence of independent creations. -/
inductive CreateCall
  | buffer (desc : BufferDescriptor)
  | bufferWithData (desc : BufferInitDescriptor)
  | sampler (desc : SamplerDescriptor)

/-- Run one `CreateCall` against the state with the random draw `r`. -/
def runCreateCall (ctx : ResourceContext) (call : CreateCall) (r : Nat) :
    Nat × ResourceContext :=
  match call with
  | .buffer desc => create_buffer ctx desc r
  | .bufferWithData desc => create_buffer_with_data ctx desc r
  | .sampler desc => create_sampler ctx desc r

/-- Run a list of `create*` calls in order; the `i`-th call consumes the
random draw `entropy (start + i)`. Returns the handles in call order and
the final state. -/
def runCreateCalls (ctx : ResourceContext) (entropy : Nat → Nat) (start : Nat) :
    List CreateCall → List Nat × ResourceContext
  | [] => ([], ctx)
  | call :: rest =>
    let step := runCreateCall ctx call (entropy start)
    let tail := runCreateCalls step.2 entropy (start + 1) rest
    (step.1 :: tail.1, tail.2)

theorem runCreateCall_fst (ctx : ResourceContext) (call : CreateCall) (r : Nat) :
    (runCreateCall ctx call r).1 = uuidV4 r := by
  cases call <;> rfl

theorem runCreateCalls_fst (entropy : Nat → Nat) :
    ∀ (calls : List CreateCall) (ctx : ResourceContext) (start : Nat),
      (runCreateCalls ctx entropy start calls).1 =
        (List.range calls.length).map (fun j => uuidV4 (entropy (start + j))) := by
  intro calls
  induction calls with
  | nil => intro ctx start; rfl
  | cons call rest ih =>
    intro ctx start
    simp only [runCreateCalls, List.length_cons, List.range_succ_eq_map,
      List.map_cons, List.map_map]
    rw [runCreateCall_fst, ih, Nat.add_zero]
    have hcomp : ((fun j => uuidV4 (entropy (start + j))) ∘ Nat.succ) =
        fun j => uuidV4 (entropy (start + 1 + j)) := by
      funext j
      simp only [Function.comp]
      congr 2
      omega
    rw [hcomp]
    simp

/-! ## Legacy swap-chain draft (`src/render/render_context.rs`)

The earlier `RenderContext` draft: feature verification at initialization
and the discrete swap-chain resize path. Driver responses are again
explicit oracle inputs. Feature sets are `wgpu::Features` bitflag values
(`u64`); `contains` is `supported &&& required = required` and bitflags
`remove` is the bitwise difference `Nat.ldiff`. -/

/-- `RenderContextError` (`render_context.rs`); the `RequestDeviceError`
payload is carried as an opaque code. -/
inductive RenderContextError
  | FailedToRequestAdapter
  | FailedToRequestDevice (reason : Nat)
  | FeaturesNotSupported (missing : Nat)
deriving DecidableEq

/-- Driver responses consumed by the legacy `RenderContext::new`: the
feature set of the adapter `request_adapter` yields (or `none` when no
adapter is found), whether `request_device` succeeds, its error payload
when it fails, and what `get_swap_chain_preferred_format` returns. -/
structure LegacyEnvironment where
  adapter_features : Option Nat
  device_ok : Bool
  device_error : Nat
  preferred_format : Option Nat
deriving DecidableEq

/-- The state of the legacy `RenderContext` after construction: the cached
window size, the swap-chain descriptor, and the number of
`create_swap_chain` calls made so far (the native swap chain observed
through its recreations). -/
structure LegacyContext where
  size_width : Nat
  size_height : Nat
  sc_format : Nat
  sc_width : Nat
  sc_height : Nat
  sc_present_mode : PresentMode
  swap_chains_created : Nat
deriving DecidableEq

/-- Result of the legacy `RenderContext::new`: `Ok`, a typed `Err`, or the
panic of `get_swap_chain_preferred_format(..).unwrap()` on `None`. -/
inductive LegacyInitResult
  | ok (ctx : LegacyContext)
  | err (e : RenderContextError)
  | panicked
deriving DecidableEq

/-- The legacy `RenderContext::new` outcome together with whether
`request_device` was reached. -/
structure LegacyInitOutcome where
  result : LegacyInitResult
  device_requested : Bool
deriving DecidableEq

/-- Legacy `RenderContext::new` (`render_context.rs`): request the adapter;
verify `supported_features.contains(desc.features)` and fail with
`FeaturesNotSupported(required.remove(supported))` before any device
request; then request the device; then build the swap chain at the
window's size with the preferred format and `PresentMode::Fifo`. -/
def legacy_new (window : Window) (env : LegacyEnvironment)
    (features : Nat) : LegacyInitOutcome :=
  match env.adapter_features with
  | none => ⟨.err .FailedToRequestAdapter, false⟩
  | some supported =>
    if ¬ (supported &&& features = features) then
      ⟨.err (.FeaturesNotSupported (Nat.ldiff features supported)), false⟩
    else if env.device_ok then
      match env.preferred_format with
      | some format =>
        ⟨.ok
          { size_width := window.width
            size_height := window.height
            sc_format := format
            sc_width := window.width
            sc_height := window.height
            sc_present_mode := .Fifo
            swap_chains_created := 1 }, true⟩
      | none => ⟨.panicked, true⟩
    else ⟨.err (.FailedToRequestDevice env.device_error), true⟩

/-- Legacy `RenderContext::update_swap_chain` (`render_context.rs`): the
guard tests the PREVIOUSLY stored size (`self.size`), not the new one;
when it passes, store the new size and recreate the swap chain. -/
def update_swap_chain (st : LegacyContext) (new_width new_height : Nat) :
    LegacyContext :=
  if st.size_width > 0 && st.size_height > 0 then
    { st with
      size_width := new_width
      size_height := new_height
      sc_width := new_width
      sc_height := new_height
      swap_chains_created := st.swap_chains_created + 1 }
  else st

/-! ## Fixtures -/

/-- A sample surface configuration: preferred format code 5, 800×600,
`Mailbox`, as `create_surface` builds it. -/
def sampleConfig : SurfaceConfiguration :=
  { usage := RENDER_ATTACHMENT
    format := 5
    width := 800
    height := 600
    present_mode := .Mailbox }

/-- A registry state holding one surface for window identity 7, configured
once at 800×600. -/
def sampleSurfaceState : ResourceContext :=
  { surfaces := [(7, (⟨[sampleConfig]⟩, sampleConfig))]
    samplers := []
    buffers := [] }

/-- `sampleSurfaceState` after exactly one further reconfiguration with the
stored configuration (what a loss recovery produces). -/
def reconfiguredSampleState : ResourceContext :=
  { surfaces := [(7, (⟨[sampleConfig, sampleConfig]⟩, sampleConfig))]
    samplers := []
    buffers := [] }

/-- The legacy draft's state after construction against an 800×600 window. -/
def sampleLegacyContext : LegacyContext :=
  { size_width := 800
    size_height := 600
    sc_format := 5
    sc_width := 800
    sc_height := 600
    sc_present_mode := .Fifo
    swap_chains_created := 1 }

/-- The spec's scenario buffer descriptor: `{size=256, usage=VERTEX|COPY_DST}`
(`VERTEX = 32`, `COPY_DST = 8`). -/
def sampleBufferDescriptor : BufferDescriptor :=
  { size := 256, usage := 40, mapped_at_creation := false }

/-- The source `Default for SamplerDescriptor`: `ClampToEdge`/`Nearest`
everywhere, `lod_min_clamp = 0.0`, `lod_max_clamp = f32::MAX` (bit pattern
`0x7F7FFFFF`), no compare, no anisotropy, no border color. -/
def defaultSamplerDescriptor : SamplerDescriptor :=
  { address_mode_u := .ClampToEdge
    address_mode_v := .ClampToEdge
    address_mode_w := .ClampToEdge
    mag_filter := .Nearest
    min_filter := .Nearest
    mipmap_filter := .Nearest
    lod_min_clamp := 0
    lod_max_clamp := 0x7F7FFFFF
    compare := none
    anisotropy_clamp := none
    border_color := none }

/-- A state with one sampler (key 11) and one buffer (key 9), for no-op
removal checks. -/
def sampleTableState : ResourceContext :=
  { surfaces := []
    samplers := [(11, ⟨samplerDescriptorFrom defaultSamplerDescriptor⟩)]
    buffers := [(9, .fromDescriptor (bufferDescriptorFrom sampleBufferDescriptor))] }

/-- The registry after registering window 1 at 800×600 with preferred
format 5. -/
def registeredOnceState : ResourceContext :=
  { surfaces := [(1, (⟨[⟨RENDER_ATTACHMENT, 5, 800, 600, .Mailbox⟩]⟩,
      ⟨RENDER_ATTACHMENT, 5, 800, 600, .Mailbox⟩))]
    samplers := []
    buffers := [] }

/-- A driver whose surface cannot present with `Mailbox`, yet supports the
surface and reports preferred format 5. -/
def noMailboxEnvironment : SurfaceEnvironment :=
  { is_surface_supported := true
    preferred_format := some 5
    mailbox_supported := false }

/-- The present mode stored for `window` after `create_surface` against a
fresh registry, when the call returns normally. -/
def registeredPresentMode (ctx : ResourceContext) (window : Window)
    (env : SurfaceEnvironment) : Option PresentMode :=
  match create_surface ctx window env with
  | .ok c => (lookupTable c.surfaces window.id).map (fun e => e.2.present_mode)
  | _ => none

/-! ## Claims -/

/-- C1: the claim says `update_surface` with a zero dimension is a guarded
no-op. The code has no such guard: on a surface registered at 800×600,
`update_surface(7, 0, 600)` stores width 0 / height 600 and reconfigures
the native surface a second time, so the state changes. The legacy
`update_swap_chain`'s guard tests the previously stored size instead of
the new one, so it too accepts the zero width and recreates the swap
chain. -/
theorem update_surface_zero_size_not_guarded :
    (lookupTable (update_surface sampleSurfaceState 7 0 600).surfaces 7).map
        (fun e => (e.2.width, e.2.height, e.1.configured.length)) =
      some (0, 600, 2) ∧
    update_surface sampleSurfaceState 7 0 600 ≠ sampleSurfaceState ∧
    (update_swap_chain sampleLegacyContext 0 600).sc_width = 0 ∧
    (update_swap_chain sampleLegacyContext 0 600).swap_chains_created = 2 := by
  decide

/-- C2: the claim says every `CompareFunction` variant is translated to the
identically-named native variant. The source arm for `GreaterEqual` reads
`CompareFunction::GreaterEqual => Self::Never`, so `GreaterEqual` is
translated to `Never`, not to `GreaterEqual`. -/
theorem compareFunction_greaterEqual_translated_to_never :
    compareFunctionFrom CompareFunction.GreaterEqual = WgpuCompareFunction.Never ∧
    compareFunctionFrom CompareFunction.GreaterEqual ≠ WgpuCompareFunction.GreaterEqual := by
  decide

/-- C3: when the adapter is found but its feature set does not contain the
required features, the legacy `RenderContext::new` fails with
`FeaturesNotSupported` carrying exactly the required features the adapter
lacks (bit `b` is set in the payload iff it is required and unsupported),
and `request_device` is never reached. -/
theorem legacy_new_reports_exact_missing_features (window : Window)
    (env : LegacyEnvironment) (features supported : Nat)
    (hA : env.adapter_features = some supported)
    (hMiss : ¬ (supported &&& features = features)) :
    legacy_new window env features =
      ⟨.err (.FeaturesNotSupported (Nat.ldiff features supported)), false⟩ ∧
    ∀ b : Nat, (Nat.ldiff features supported).testBit b =
      (features.testBit b && !(supported.testBit b)) := by
  refine ⟨?_, fun b => Nat.testBit_ldiff features supported b⟩
  simp [legacy_new, hA, hMiss]

/-- Witness for C3: adapter supports only feature bit 0, feature bits 0 and
1 required: the error carries exactly bit 1 and no device is requested. -/
theorem legacy_new_reports_exact_missing_features_witness :
    ¬ ((1 : Nat) &&& 3 = 3) ∧
    legacy_new ⟨1, 800, 600⟩ ⟨some 1, true, 0, some 5⟩ 3 =
      ⟨.err (.FeaturesNotSupported 2), false⟩ := by
  refine ⟨by decide, ?_⟩
  have h := (legacy_new_reports_exact_missing_features ⟨1, 800, 600⟩
    ⟨some 1, true, 0, some 5⟩ 3 1 rfl (by decide)).1
  have h2 : Nat.ldiff 3 1 = 2 := by
    unfold Nat.ldiff
    rw [Nat.bitwise]
    norm_num
  rw [h2] at h
  exact h

/-- C4 counterexample: the claim says a lost OR OUTDATED surface error
triggers exactly one reconfiguration with the stored configuration. On
`Outdated` the code takes the catch-all arm: it returns `None` with the
state exactly unchanged (one configuration on record, not two), while
`Lost` is the case that actually produces the reconfigured state. -/
theorem surface_next_frame_outdated_does_not_reconfigure :
    surface_next_frame sampleSurfaceState 7 (.failure .Outdated) =
      .noFrame sampleSurfaceState ∧
    surface_next_frame sampleSurfaceState 7 (.failure .Outdated) ≠
      .noFrame reconfiguredSampleState ∧
    surface_next_frame sampleSurfaceState 7 (.failure .Lost) =
      .noFrame reconfiguredSampleState := by
  decide

/-- C4 (amended): for a registered surface, `Lost` reconfigures exactly
once with the stored configuration and yields `None`; `Outdated` and
`Timeout` are swallowed, yielding `None` with the state untouched; a
successful acquisition yields the frame with the state untouched. -/
theorem surface_next_frame_error_policy (ctx : ResourceContext) (id : Nat)
    (surface : WgpuSurface) (desc : SurfaceConfiguration)
    (h : lookupTable ctx.surfaces id = some (surface, desc)) :
    surface_next_frame ctx id (.failure .Lost) =
      .noFrame { ctx with
        surfaces := insertTable ctx.surfaces id
          (⟨desc :: surface.configured⟩, desc) } ∧
    surface_next_frame ctx id (.failure .Outdated) = .noFrame ctx ∧
    surface_next_frame ctx id (.failure .Timeout) = .noFrame ctx ∧
    surface_next_frame ctx id .success = .frame ctx := by
  refine ⟨?_, ?_, ?_, ?_⟩ <;> simp [surface_next_frame, h]

/-- Witness for C4 (amended), at the sample registry. -/
theorem surface_next_frame_error_policy_witness :
    lookupTable sampleSurfaceState.surfaces 7 =
      some (⟨[sampleConfig]⟩, sampleConfig) ∧
    surface_next_frame sampleSurfaceState 7 (.failure .Lost) =
      .noFrame { sampleSurfaceState with
        surfaces := insertTable sampleSurfaceState.surfaces 7
          (⟨sampleConfig :: [sampleConfig]⟩, sampleConfig) } ∧
    surface_next_frame sampleSurfaceState 7 (.failure .Timeout) =
      .noFrame sampleSurfaceState := by
  have h := surface_next_frame_error_policy sampleSurfaceState 7
    ⟨[sampleConfig]⟩ sampleConfig (by decide)
  exact ⟨by decide, h.1, h.2.2.1⟩

/-- C5: starting from a registry with no entry for the window, a normal
return of `create_surface` leaves exactly one entry for that identity, and
a second call for the same window is a no-op returning the state
unchanged — regardless of what the driver would answer the second time
(nothing is recreated or reconfigured). -/
theorem create_surface_idempotent (ctx ctx₁ : ResourceContext) (window : Window)
    (env env' : SurfaceEnvironment)
    (h0 : countTable ctx.surfaces window.id = 0)
    (h1 : create_surface ctx window env = .ok ctx₁) :
    countTable ctx₁.surfaces window.id = 1 ∧
    create_surface ctx₁ window env' = .ok ctx₁ := by
  have hlook := lookupTable_eq_none_of_countTable_eq_zero h0
  have hcont : containsTable ctx.surfaces window.id = false := by
    simp [containsTable, hlook]
  rw [create_surface, hcont] at h1
  simp only [Bool.false_eq_true, if_false] at h1
  cases hsup : env.is_surface_supported
  · rw [hsup] at h1
    simp at h1
  · rw [hsup] at h1
    simp only [if_true] at h1
    cases hfmt : env.preferred_format with
    | none =>
      rw [hfmt] at h1
      simp at h1
    | some format =>
      rw [hfmt] at h1
      simp only [CreateSurfaceOutcome.ok.injEq] at h1
      subst h1
      constructor
      · exact countTable_insertTable_self ctx.surfaces window.id _
      · rw [create_surface]
        have : containsTable
            (insertTable ctx.surfaces window.id
              (⟨[⟨RENDER_ATTACHMENT, format, window.width, window.height,
                  .Mailbox⟩]⟩,
               ⟨RENDER_ATTACHMENT, format, window.width, window.height,
                  .Mailbox⟩)) window.id = true := by
          simp [containsTable, lookupTable_insertTable_self]
        rw [this]
        simp

/-- Witness for C5: register window 1 (800×600, preferred format 5) against
the empty registry twice. -/
theorem create_surface_idempotent_witness :
    countTable emptyResourceContext.surfaces 1 = 0 ∧
    create_surface emptyResourceContext ⟨1, 800, 600⟩ ⟨true, some 5, true⟩ =
      .ok registeredOnceState ∧
    countTable registeredOnceState.surfaces 1 = 1 ∧
    create_surface registeredOnceState ⟨1, 800, 600⟩ ⟨false, none, false⟩ =
      .ok registeredOnceState := by
  have h := create_surface_idempotent emptyResourceContext registeredOnceState
    ⟨1, 800, 600⟩ ⟨true, some 5, true⟩ ⟨false, none, false⟩ rfl (by decide)
  exact ⟨rfl, by decide, h.1, h.2⟩

/-- C6 counterexample: the claim says a blocking FIFO mode is the fall-back
when a non-blocking/triple-buffered mode is unavailable. The code never
consults availability: against a driver that cannot present with
`Mailbox`, first registration still stores `Mailbox`, not `Fifo`. -/
theorem create_surface_mailbox_unconditional :
    noMailboxEnvironment.mailbox_supported = false ∧
    registeredPresentMode emptyResourceContext ⟨1, 800, 600⟩ noMailboxEnvironment =
      some PresentMode.Mailbox ∧
    registeredPresentMode emptyResourceContext ⟨1, 800, 600⟩ noMailboxEnvironment ≠
      some PresentMode.Fifo := by
  decide

/-- C6 (amended): on first registration the surface is configured once, at
the window's current size, with the surface's preferred format, usage
`RENDER_ATTACHMENT`, and present mode `Mailbox` unconditionally. -/
theorem create_surface_first_registration_config (ctx : ResourceContext)
    (window : Window) (env : SurfaceEnvironment) (format : Nat)
    (h0 : lookupTable ctx.surfaces window.id = none)
    (hsup : env.is_surface_supported = true)
    (hfmt : env.preferred_format = some format) :
    create_surface ctx window env = .ok { ctx with
      surfaces := insertTable ctx.surfaces window.id
        (⟨[⟨RENDER_ATTACHMENT, format, window.width, window.height, .Mailbox⟩]⟩,
         ⟨RENDER_ATTACHMENT, format, window.width, window.height, .Mailbox⟩) } := by
  rw [create_surface]
  have hcont : containsTable ctx.surfaces window.id = false := by
    simp [containsTable, h0]
  rw [hcont, hsup, hfmt]
  simp

/-- Witness for C6 (amended): the 800×600 scenario with preferred format 5
yields an entry with format 5, size (800, 600), `Mailbox`. -/
theorem create_surface_first_registration_config_witness :
    lookupTable emptyResourceContext.surfaces 1 = none ∧
    create_surface emptyResourceContext ⟨1, 800, 600⟩ ⟨true, some 5, true⟩ =
      .ok registeredOnceState ∧
    (lookupTable registeredOnceState.surfaces 1).map
        (fun e => (e.2.format, e.2.width, e.2.height, e.2.present_mode)) =
      some (5, 800, 600, PresentMode.Mailbox) := by
  have h := create_surface_first_registration_config emptyResourceContext
    ⟨1, 800, 600⟩ ⟨true, some 5, true⟩ 5 rfl rfl rfl
  exact ⟨rfl, h, by decide⟩

/-- C7 counterexample: handle values are `Uuid::new_v4()` draws, so their
distinctness is only as good as the randomness. With an entropy source
that returns the same 128-bit draw twice, two independent `create_buffer`
calls return the same handle: the claim's unconditional pairwise
distinctness fails. -/
theorem create_handles_collide_on_equal_entropy :
    (runCreateCalls emptyResourceContext (fun _ => 0) 0
        [CreateCall.buffer sampleBufferDescriptor,
         CreateCall.buffer sampleBufferDescriptor]).1 = [uuidV4 0, uuidV4 0] ∧
    ¬ ((runCreateCalls emptyResourceContext (fun _ => 0) 0
        [CreateCall.buffer sampleBufferDescriptor,
         CreateCall.buffer sampleBufferDescriptor]).1).Pairwise
        (fun a b => a ≠ b) := by
  refine ⟨rfl, fun h => ?_⟩
  have h' : ([uuidV4 0, uuidV4 0] : List Nat).Pairwise (fun a b => a ≠ b) := h
  exact (List.pairwise_cons.mp h').1 (uuidV4 0) (List.mem_singleton.mpr rfl) rfl

/-- C7 (amended): any sequence of independent `create_buffer` /
`create_buffer_with_data` / `create_sampler` calls returns pairwise
distinct handles provided the 128-bit random draws behind them are
pairwise distinct on their low 62 bits (bits untouched by the UUIDv4
version/variant stamping — distinct with overwhelming probability);
and each single call inserts exactly one entry, keyed by the returned
handle, into its table, leaving every other key's binding unchanged. -/
theorem create_handles_distinct_of_entropy_distinct (ctx : ResourceContext)
    (entropy : Nat → Nat) (calls : List CreateCall)
    (hE : ∀ i j, i < calls.length → j < calls.length → i ≠ j →
      entropy i % 2 ^ 62 ≠ entropy j % 2 ^ 62) :
    ((runCreateCalls ctx entropy 0 calls).1).Pairwise (fun a b => a ≠ b) ∧
    (∀ (c : ResourceContext) (d : BufferDescriptor) (r : Nat),
      countTable (create_buffer c d r).2.buffers (create_buffer c d r).1 = 1 ∧
      ∀ k, ¬ k = (create_buffer c d r).1 →
        lookupTable (create_buffer c d r).2.buffers k = lookupTable c.buffers k) ∧
    (∀ (c : ResourceContext) (d : BufferInitDescriptor) (r : Nat),
      countTable (create_buffer_with_data c d r).2.buffers
          (create_buffer_with_data c d r).1 = 1 ∧
      ∀ k, ¬ k = (create_buffer_with_data c d r).1 →
        lookupTable (create_buffer_with_data c d r).2.buffers k =
          lookupTable c.buffers k) ∧
    (∀ (c : ResourceContext) (d : SamplerDescriptor) (r : Nat),
      countTable (create_sampler c d r).2.samplers (create_sampler c d r).1 = 1 ∧
      ∀ k, ¬ k = (create_sampler c d r).1 →
        lookupTable (create_sampler c d r).2.samplers k =
          lookupTable c.samplers k) := by
  refine ⟨?_, ?_, ?_, ?_⟩
  · rw [runCreateCalls_fst, List.pairwise_iff_getElem]
    intro i j hi hj hij
    simp only [List.length_map, List.length_range] at hi hj
    rw [List.getElem_map, List.getElem_map, List.getElem_range, List.getElem_range]
    simp only [Nat.zero_add]
    exact uuidV4_ne_of_low_bits_ne (hE i j hi hj (Nat.ne_of_lt hij))
  · intro c d r
    exact ⟨countTable_insertTable_self c.buffers (uuidV4 r) _,
      fun k hk => lookupTable_insertTable_ne c.buffers (uuidV4 r) k _ hk⟩
  · intro c d r
    exact ⟨countTable_insertTable_self c.buffers (uuidV4 r) _,
      fun k hk => lookupTable_insertTable_ne c.buffers (uuidV4 r) k _ hk⟩
  · intro c d r
    exact ⟨countTable_insertTable_self c.samplers (uuidV4 r) _,
      fun k hk => lookupTable_insertTable_ne c.samplers (uuidV4 r) k _ hk⟩

/-- Witness for C7 (amended): three creations — the scenario's plain
buffer, a 64-byte init buffer, a default sampler — with draws 1, 2, 3
yield three pairwise distinct handles. -/
theorem create_handles_distinct_of_entropy_distinct_witness :
    (∀ i j, i < 3 → j < 3 → i ≠ j →
      (fun n => n + 1) i % 2 ^ 62 ≠ (fun n => n + 1) j % 2 ^ 62) ∧
    ((runCreateCalls emptyResourceContext (fun n => n + 1) 0
        [CreateCall.buffer sampleBufferDescriptor,
         CreateCall.bufferWithData ⟨List.replicate 64 0, 32⟩,
         CreateCall.sampler defaultSamplerDescriptor]).1).Pairwise
      (fun a b => a ≠ b) := by
  have hE : ∀ i j : Nat, i < 3 → j < 3 → i ≠ j →
      (fun n => n + 1) i % 2 ^ 62 ≠ (fun n => n + 1) j % 2 ^ 62 := by
    intro i j hi hj hij
    show (i + 1) % 2 ^ 62 ≠ (j + 1) % 2 ^ 62
    rw [Nat.mod_eq_of_lt (by omega), Nat.mod_eq_of_lt (by omega)]
    omega
  exact ⟨hE, (create_handles_distinct_of_entropy_distinct emptyResourceContext
    (fun n => n + 1)
    [CreateCall.buffer sampleBufferDescriptor,
     CreateCall.bufferWithData ⟨List.replicate 64 0, 32⟩,
     CreateCall.sampler defaultSamplerDescriptor] hE).1⟩

/-- C8: removing a handle that is not present in its table is a no-op, not
an error: the whole context state — the rest of that table and the other
tables included — is returned exactly unchanged, for `remove_buffer` and
`remove_sampler` alike. -/
theorem remove_absent_handle_noop (ctx : ResourceContext) (bid sid : Nat) :
    (lookupTable ctx.buffers bid = none → remove_buffer ctx bid = ctx) ∧
    (lookupTable ctx.samplers sid = none → remove_sampler ctx sid = ctx) := by
  constructor
  · intro h
    simp [remove_buffer, eraseTable_eq_of_lookupTable_eq_none h]
  · intro h
    simp [remove_sampler, eraseTable_eq_of_lookupTable_eq_none h]

/-- Witness for C8: key 12 is absent from both tables of a state holding a
buffer (key 9) and a sampler (key 11); both removals return the state
unchanged. -/
theorem remove_absent_handle_noop_witness :
    lookupTable sampleTableState.buffers 12 = none ∧
    lookupTable sampleTableState.samplers 12 = none ∧
    remove_buffer sampleTableState 12 = sampleTableState ∧
    remove_sampler sampleTableState 12 = sampleTableState :=
  ⟨by decide, by decide,
    (remove_absent_handle_noop sampleTableState 12 12).1 (by decide),
    (remove_absent_handle_noop sampleTableState 12 12).2 (by decide)⟩

/-- C9: for a window identity with no entry in the surface registry,
`surface_next_frame` returns `None` with the state unchanged — whatever
the driver would have answered — rather than an error or a crash. -/
theorem surface_next_frame_unregistered_none (ctx : ResourceContext) (id : Nat)
    (attempt : FrameAttempt) (h : lookupTable ctx.surfaces id = none) :
    surface_next_frame ctx id attempt = .noFrame ctx := by
  simp [surface_next_frame, h]

/-- Witness for C9: window 3 is not registered in the sample registry. -/
theorem surface_next_frame_unregistered_none_witness :
    lookupTable sampleSurfaceState.surfaces 3 = none ∧
    surface_next_frame sampleSurfaceState 3 FrameAttempt.success =
      NextFrameOutcome.noFrame sampleSurfaceState :=
  ⟨by decide,
    surface_next_frame_unregistered_none sampleSurfaceState 3
      FrameAttempt.success (by decide)⟩

/-- C10: the translation of a public `BufferDescriptor` to the native
descriptor fixes `mapped_at_creation` to `false` whatever the public
field says, and `create_buffer` stores the buffer built from exactly that
translated descriptor under the returned handle — the public
`mapped_at_creation` field is silently ignored. -/
theorem buffer_mapped_at_creation_ignored (d : BufferDescriptor)
    (ctx : ResourceContext) (r : Nat) :
    (bufferDescriptorFrom d).mapped_at_creation = false ∧
    lookupTable (create_buffer ctx d r).2.buffers (create_buffer ctx d r).1 =
      some (WgpuBuffer.fromDescriptor (bufferDescriptorFrom d)) :=
  ⟨rfl, lookupTable_insertTable_self ctx.buffers (uuidV4 r) _⟩
